import Mathlib

/-!
Shallow embedding of the authenticated Salesforce session/request core of
the `salesforce-mcp-ts` repository.

The embedding covers:
* `src/config/config.ts` — URL builders and `ConfigManager.validateConfig`;
* `src/auth/password-auth.ts` — `SalesforcePasswordAuth.authenticate` and
  `SalesforcePasswordAuth.refreshAccessToken`;
* `src/client/salesforce-client.ts` — `SalesforceClient.connect`,
  `tryAccessTokenAuth`, `tryUsernamePasswordAuth`, `tryTokenRefresh`,
  `makeRequest`, `queryAll`, `getObjectFields`, `toolingExecute`,
  `apexExecute`.

Network I/O is modelled by oracles: each downstream HTTP call consumes the
next entry of an oracle function, and every operation additionally returns
a transcript of the requests it issued, so that call counts and request
shapes can be reasoned about.  TypeScript truthiness on optional strings
(undefined and the empty string are both falsy) is modelled by `optTruthy`.
-/

/-- One picklist entry of a field descriptor (`SalesforceField.picklistValues`). -/
structure PicklistValue where
  label : String
  value : String
  active : Bool
  defaultValue : Bool
deriving Repr, DecidableEq

/-- Field descriptor, as declared in `types/salesforce.ts` (`SalesforceField`). -/
structure SalesforceField where
  label : String
  name : String
  updateable : Bool
  type : String
  length : Nat
  picklistValues : List PicklistValue
deriving Repr, DecidableEq

/-- Object describe response (`SalesforceObjectMetadata`). -/
structure SalesforceObjectMetadata where
  fields : List SalesforceField
  label : String
  name : String
  queryable : Bool
  createable : Bool
  updateable : Bool
  deletable : Bool
deriving Repr, DecidableEq

/-- `SalesforceConfig` from `types/salesforce.ts`: optional string fields are
`Option String`; TS `undefined` is `none`. -/
structure SalesforceConfig where
  clientId : String
  clientSecret : String
  username : Option String
  password : Option String
  securityToken : Option String
  sandbox : Bool
  accessToken : Option String
  instanceUrl : Option String
deriving Repr, DecidableEq

/-- Mutable fields of a `SalesforcePasswordAuth` instance (plus its client
credentials). TS `null` is `none`. -/
structure AuthClientState where
  clientId : String
  clientSecret : String
  accessToken : Option String
  instanceUrl : Option String
  refreshToken : Option String
deriving Repr, DecidableEq

/-- The mutable state of a `SalesforceClient`: its config (which doubles as
session storage), the optional `authClient`, and the `sobjectsCache`
(modelled as an association list; `Map.set` prepends). -/
structure ClientState where
  config : SalesforceConfig
  authClient : Option AuthClientState
  sobjectsCache : List (String × List SalesforceField)
deriving Repr, DecidableEq

/-- Wire shape of an identity-endpoint (OAuth token) response body together
with its HTTP status.  The declared TS types also carry `id`, `token_type`,
`issued_at` and `signature`, which no code under `src/` ever reads, so they
are omitted; `refresh_token` is optional on the wire
(`SalesforceAuthResponse.refresh_token?`). -/
structure AuthHttpResponse where
  status : Nat
  access_token : String
  instance_url : String
  refresh_token : Option String
deriving Repr, DecidableEq

/-- The `URLSearchParams` form body posted by `authenticate`. -/
structure FormBody where
  grant_type : String
  client_id : String
  client_secret : String
  username : String
  password : String
deriving Repr, DecidableEq

/-- An axios failure: either an HTTP error response (with status and the
message extracted from the body, when the body has one) or a transport
failure that never produced a response. -/
inductive AxErr where
  | http (status : Nat) (msg : Option String)
  | network
deriving Repr, DecidableEq

/-- `axios.isAxiosError(error) && error.response?.status === 401`. -/
def AxErr.is401 : AxErr → Bool
  | .http s _ => s == 401
  | .network => false

/-- Errors surfaced by `makeRequest`. `raw` is an axios error that escapes
the catch block unwrapped (the retry after a successful token refresh is not
itself guarded). -/
inductive ReqError where
  | notAuthenticated
  | api (msg : String)
  | network
  | raw (e : AxErr)
deriving Repr, DecidableEq

/-- Errors surfaced by `toolingExecute` / `apexExecute`, which have no
error-translation wrapper: axios errors propagate raw. -/
inductive ToolErr where
  | notAuthenticated
  | ax (e : AxErr)
deriving Repr, DecidableEq

/-- A downstream HTTP request as issued by the client: method, absolute URL,
request body, and the bearer token placed in the Authorization header. -/
structure RequestSpec where
  method : String
  url : String
  body : Option String
  token : String
deriving Repr, DecidableEq

/-- One page of a query result (`SalesforceQueryResult`); records are kept
abstract. -/
structure QueryPage (α : Type) where
  totalSize : Nat
  done : Bool
  records : List α
  nextRecordsUrl : Option String
deriving Repr, DecidableEq

/-- TS truthiness of an optional string: `undefined` and `""` are falsy. -/
def optTruthy : Option String → Bool
  | none => false
  | some s => !(s == "")

/-- TS template interpolation `` `Bearer ${token}` `` renders `undefined` as
the literal string "undefined"; this gives the interpolated token text. -/
def tokenString : Option String → String
  | some t => t
  | none => "undefined"

/-- TS `String.prototype.replace` with a string pattern replaces only the
first occurrence. -/
def replaceFirst (s pat repl : String) : String :=
  match s.splitOn pat with
  | [] => s
  | [_] => s
  | x :: y :: rest => x ++ repl ++ String.intercalate pat (y :: rest)

/-- `SALESFORCE_ENDPOINTS.LOGIN_URL`. -/
def LOGIN_URL : String := "https://login.salesforce.com"

/-- `SALESFORCE_ENDPOINTS.SANDBOX_URL`. -/
def SANDBOX_URL : String := "https://test.salesforce.com"

/-- `SALESFORCE_ENDPOINTS.OAUTH_TOKEN_PATH`. -/
def OAUTH_TOKEN_PATH : String := "/services/oauth2/token"

/-- `SALESFORCE_ENDPOINTS.API_VERSION`. -/
def API_VERSION : String := "v58.0"

/-- `getSalesforceBaseUrl` from `config.ts`. -/
def getSalesforceBaseUrl (sandbox : Bool) : String :=
  if sandbox then SANDBOX_URL else LOGIN_URL

/-- `getOAuthTokenUrl` from `config.ts`. -/
def getOAuthTokenUrl (sandbox : Bool) : String :=
  getSalesforceBaseUrl sandbox ++ OAUTH_TOKEN_PATH

/-- `getApiUrl` from `config.ts`: strips one trailing slash from the
instance URL, ensures the path has a leading slash, and joins them through
the versioned data path. -/
def getApiUrl (instanceUrl path : String) : String :=
  let cleanInstanceUrl := if instanceUrl.endsWith "/" then instanceUrl.dropRight 1 else instanceUrl
  let cleanPath := if path.startsWith "/" then path else "/" ++ path
  cleanInstanceUrl ++ "/services/data/" ++ API_VERSION ++ cleanPath

/-- `ConfigManager.validateConfig`: throws (here: returns `.error`) when the
client credentials are missing, or when neither the direct-token pair nor the
username/password pair is present. -/
def validateConfig (cfg : SalesforceConfig) : Except String Unit :=
  if !(cfg.clientId == "") && !(cfg.clientSecret == "") then
    let hasDirectTokens := optTruthy cfg.accessToken && optTruthy cfg.instanceUrl
    let hasCredentials := optTruthy cfg.username && optTruthy cfg.password
    if !hasDirectTokens && !hasCredentials then
      Except.error "Either (SALESFORCE_ACCESS_TOKEN + SALESFORCE_INSTANCE_URL) or (SALESFORCE_USERNAME + SALESFORCE_PASSWORD) must be provided"
    else Except.ok ()
  else Except.error "Client ID and Client Secret are required"

/-- Result of `SalesforcePasswordAuth.authenticate`: the returned boolean,
the auth state afterwards, and the token request that was posted (URL and
form body).  The request is always posted before the status is inspected. -/
structure AuthResult where
  success : Bool
  auth : AuthClientState
  url : String
  body : FormBody
deriving Repr, DecidableEq

/-- `SalesforcePasswordAuth.authenticate`: combines password and security
token when the token is truthy, posts the password grant to
`getOAuthTokenUrl sandbox`, and on a 200 response stores
`access_token` / `instance_url` / `refresh_token ?? null`. -/
def authenticate (a : AuthClientState) (username password securityToken : String)
    (sandbox : Bool) (resp : Except AxErr AuthHttpResponse) : AuthResult :=
  let tokenUrl := getOAuthTokenUrl sandbox
  let combinedPassword := if securityToken == "" then password else password ++ securityToken
  let body : FormBody :=
    ⟨"password", a.clientId, a.clientSecret, username, combinedPassword⟩
  match resp with
  | .error _ => ⟨false, a, tokenUrl, body⟩
  | .ok r =>
    if r.status == 200 then
      ⟨true, { a with accessToken := some r.access_token,
                      instanceUrl := some r.instance_url,
                      refreshToken := r.refresh_token }, tokenUrl, body⟩
    else ⟨false, a, tokenUrl, body⟩

/-- Result of `refreshAccessToken`: the returned boolean, the auth state
afterwards, and whether a network call to the identity endpoint was made. -/
structure RefreshResult where
  success : Bool
  auth : AuthClientState
  networkCalled : Bool
deriving Repr, DecidableEq

/-- `SalesforcePasswordAuth.refreshAccessToken`: fails fast without a
network call when `refreshToken` is falsy; otherwise posts the refresh grant
and on a 200 response replaces `accessToken` and `instanceUrl` only (the
code never reads `refresh_token` out of the refresh response). -/
def refreshAccessToken (a : AuthClientState) (sandbox : Bool)
    (resp : Except AxErr AuthHttpResponse) : RefreshResult :=
  if optTruthy a.refreshToken then
    match resp with
    | .error _ => ⟨false, a, true⟩
    | .ok r =>
      if r.status == 200 then
        ⟨true, { a with accessToken := some r.access_token,
                        instanceUrl := some r.instance_url }, true⟩
      else ⟨false, a, true⟩
  else ⟨false, a, false⟩

/-- Lookup in the `sobjectsCache` association list (`Map.get`). -/
def cacheLookup (c : List (String × List SalesforceField)) (k : String) :
    Option (List SalesforceField) :=
  match c with
  | [] => none
  | (k2, v) :: rest => if k2 == k then some v else cacheLookup rest k

/-- Result of `SalesforceClient.tryTokenRefresh`. -/
structure TryRefreshResult where
  success : Bool
  state : ClientState
  networkCalled : Bool
deriving Repr, DecidableEq

/-- `SalesforceClient.tryTokenRefresh`: only proceeds when
`this.authClient?.refreshToken` is truthy; on a successful refresh copies the
new token and instance URL into the config. -/
def tryTokenRefresh (st : ClientState) (resp : Except AxErr AuthHttpResponse) :
    TryRefreshResult :=
  match st.authClient with
  | none => ⟨false, st, false⟩
  | some a =>
    if optTruthy a.refreshToken then
      let r := refreshAccessToken a st.config.sandbox resp
      if r.success then
        let cfg2 := { st.config with accessToken := r.auth.accessToken, instanceUrl := r.auth.instanceUrl }
        ⟨true, { st with authClient := some r.auth, config := cfg2 }, r.networkCalled⟩
      else ⟨false, { st with authClient := some r.auth }, r.networkCalled⟩
    else ⟨false, st, false⟩

/-- `handleRequestError` restricted to axios errors: an error response is
wrapped as a Salesforce API error carrying the extracted message (falling
back to `HTTP <status>`), a request that got no response becomes the network
error. -/
def handleRequestError : AxErr → ReqError
  | .http status msg => .api ("Salesforce API Error: " ++ msg.getD ("HTTP " ++ toString status))
  | .network => .network

/-- Result of `makeRequest`: the value or error surfaced to the caller, the
client state afterwards, the data-endpoint requests issued (in order), and
the number of times the renewal flow (`tryTokenRefresh`) was invoked. -/
structure MakeRequestResult (α : Type) where
  result : Except ReqError α
  state : ClientState
  issued : List RequestSpec
  renewCalls : Nat

/-- `SalesforceClient.makeRequest`.  `net i` is the outcome of the `i`-th
data-endpoint request of this call (0 = original, 1 = retry);
`refreshResp` is the identity endpoint's answer should a refresh be posted.
Fails fast when `accessToken` or `instanceUrl` is falsy; on a 401 invokes
`tryTokenRefresh` once and, if it succeeds, retries the same request once
with the refreshed token; any other failure is translated by
`handleRequestError`. -/
def makeRequest (st : ClientState) (method path : String) (body : Option String)
    (net : Nat → Except AxErr α) (refreshResp : Except AxErr AuthHttpResponse) :
    MakeRequestResult α :=
  if optTruthy st.config.accessToken && optTruthy st.config.instanceUrl then
    let url := getApiUrl (st.config.instanceUrl.getD "") path
    let req1 : RequestSpec := ⟨method, url, body, tokenString st.config.accessToken⟩
    match net 0 with
    | .ok d => ⟨.ok d, st, [req1], 0⟩
    | .error e =>
      if e.is401 then
        let tr := tryTokenRefresh st refreshResp
        if tr.success then
          let req2 : RequestSpec := ⟨method, url, body, tokenString tr.state.config.accessToken⟩
          match net 1 with
          | .ok d => ⟨.ok d, tr.state, [req1, req2], 1⟩
          | .error e2 => ⟨.error (.raw e2), tr.state, [req1, req2], 1⟩
        else ⟨.error (handleRequestError e), tr.state, [req1], 1⟩
      else ⟨.error (handleRequestError e), st, [req1], 0⟩
  else ⟨.error .notAuthenticated, st, [], 0⟩

/-- The while-loop condition of `queryAll`:
`!result.done && result.nextRecordsUrl` (truthiness). -/
def continues (p : QueryPage α) : Bool :=
  !p.done && optTruthy p.nextRecordsUrl

/-- The `queryAll` pagination loop.  `pages` is the oracle of successive
page responses; the second component is the list of relative paths requested
by the loop (each is the previous page's `nextRecordsUrl` with the
versioned prefix stripped, as in the source's `.replace`). -/
def queryAllLoop : QueryPage α → List (QueryPage α) → QueryPage α × List String
  | acc, [] => (acc, [])
  | acc, p :: rest =>
    if continues acc then
      let path := replaceFirst (acc.nextRecordsUrl.getD "") "/services/data/v58.0" ""
      let acc2 : QueryPage α := ⟨p.totalSize, p.done, acc.records ++ p.records, p.nextRecordsUrl⟩
      let r := queryAllLoop acc2 rest
      (r.1, path :: r.2)
    else (acc, [])

/-- `SalesforceClient.queryAll`: the initial `/query` call produced
`firstPage`; `pages` are the responses to the follow-up calls.  Returns the
accumulated result and the full request transcript (the initial `/query`
followed by the loop's requests). -/
def queryAll (firstPage : QueryPage α) (pages : List (QueryPage α)) :
    QueryPage α × List String :=
  ((queryAllLoop firstPage pages).1, "/query" :: (queryAllLoop firstPage pages).2)

/-- Result of `getObjectFields`. -/
structure GetFieldsResult where
  result : Except ReqError (List SalesforceField)
  state : ClientState
  issued : List RequestSpec

/-- The field projection applied by `getObjectFields` to the describe
response before caching. -/
def filterFields (fs : List SalesforceField) : List SalesforceField :=
  fs.map (fun f => ⟨f.label, f.name, f.updateable, f.type, f.length, f.picklistValues⟩)

/-- `SalesforceClient.getObjectFields`: returns the cached entry without any
network call on a cache hit; otherwise fetches the describe resource through
`makeRequest`, stores the filtered field list in the cache, and returns it. -/
def getObjectFields (st : ClientState) (objectName : String)
    (net : Nat → Except AxErr SalesforceObjectMetadata)
    (refreshResp : Except AxErr AuthHttpResponse) : GetFieldsResult :=
  match cacheLookup st.sobjectsCache objectName with
  | some cached => ⟨.ok cached, st, []⟩
  | none =>
    let r := makeRequest st "GET" ("/sobjects/" ++ objectName ++ "/describe") none net refreshResp
    match r.result with
    | .error e => ⟨.error e, r.state, r.issued⟩
    | .ok md =>
      let filtered := filterFields md.fields
      ⟨.ok filtered, { r.state with sobjectsCache := (objectName, filtered) :: r.state.sobjectsCache },
        r.issued⟩

/-- Result of one connect strategy attempt that issues data requests. -/
structure TryAuthResult where
  success : Bool
  state : ClientState
  issued : List RequestSpec

/-- `SalesforceClient.tryAccessTokenAuth`: only runs when both the config's
`accessToken` and `instanceUrl` are truthy; probes with `GET /sobjects`
through `makeRequest`; a failure is caught and reported as `false`. -/
def tryAccessTokenAuth (st : ClientState) (probeNet : Nat → Except AxErr Unit)
    (refreshResp : Except AxErr AuthHttpResponse) : TryAuthResult :=
  if optTruthy st.config.accessToken && optTruthy st.config.instanceUrl then
    let r := makeRequest st "GET" "/sobjects" none probeNet refreshResp
    match r.result with
    | .ok _ => ⟨true, r.state, r.issued⟩
    | .error _ => ⟨false, r.state, r.issued⟩
  else ⟨false, st, []⟩

/-- Result of the username/password strategy: the boolean, the state, and
the token-exchange request that was posted (`none` when the strategy's
preconditions were not met and no exchange was attempted). -/
structure TryPwAuthResult where
  success : Bool
  state : ClientState
  exchange : Option (String × FormBody)

/-- `SalesforceClient.tryUsernamePasswordAuth`: requires truthy `username`,
`password`, `clientId`, `clientSecret`; creates a fresh auth client and runs
`authenticate`; on success copies the obtained token and instance URL into
the config. -/
def tryUsernamePasswordAuth (st : ClientState)
    (authResp : Except AxErr AuthHttpResponse) : TryPwAuthResult :=
  if optTruthy st.config.username && optTruthy st.config.password &&
     !(st.config.clientId == "") && !(st.config.clientSecret == "") then
    let a0 : AuthClientState := ⟨st.config.clientId, st.config.clientSecret, none, none, none⟩
    let ar := authenticate a0 (st.config.username.getD "") (st.config.password.getD "")
                (st.config.securityToken.getD "") st.config.sandbox authResp
    if ar.success then
      let cfg2 := { st.config with accessToken := ar.auth.accessToken, instanceUrl := ar.auth.instanceUrl }
      ⟨true, { st with authClient := some ar.auth, config := cfg2 }, some (ar.url, ar.body)⟩
    else ⟨false, { st with authClient := some ar.auth }, some (ar.url, ar.body)⟩
  else ⟨false, st, none⟩

/-- The diagnostic lines `handleAuthFailure` passes to the error logger,
enumerating the two acceptable credential combinations. -/
def handleAuthFailureLines : List String :=
  ["❌ No valid authentication method found. Please set one of:",
   "1. SALESFORCE_ACCESS_TOKEN + SALESFORCE_INSTANCE_URL",
   "2. SALESFORCE_USERNAME + SALESFORCE_PASSWORD + SALESFORCE_CLIENT_ID + SALESFORCE_CLIENT_SECRET"]

/-- Result of `connect`: the boolean outcome, the state, the data requests
issued by the probe, the token-exchange request (if one was posted), and the
diagnostic lines logged on total failure. -/
structure ConnectResult where
  success : Bool
  state : ClientState
  probeIssued : List RequestSpec
  exchange : Option (String × FormBody)
  loggedErrors : List String

/-- `SalesforceClient.connect`:
`tryAccessTokenAuth() || tryUsernamePasswordAuth() || handleAuthFailure()`.
None of the strategies throws in this embedding, so the catch branch
(`tryTokenRefresh` on an unexpected exception) is unreachable and connect
always resolves to a boolean. -/
def connect (st : ClientState) (probeNet : Nat → Except AxErr Unit)
    (refreshResp : Except AxErr AuthHttpResponse)
    (authResp : Except AxErr AuthHttpResponse) : ConnectResult :=
  let t1 := tryAccessTokenAuth st probeNet refreshResp
  if t1.success then ⟨true, t1.state, t1.issued, none, []⟩
  else
    let t2 := tryUsernamePasswordAuth t1.state authResp
    if t2.success then ⟨true, t2.state, t1.issued, t2.exchange, []⟩
    else ⟨false, t2.state, t1.issued, t2.exchange, handleAuthFailureLines⟩

/-- Result of a pass-through call (`toolingExecute` / `apexExecute`). -/
structure PassThroughResult (α : Type) where
  result : Except ToolErr α
  issued : Option RequestSpec

/-- `SalesforceClient.toolingExecute`: checks only `instanceUrl`, builds the
tooling URL, sends `Bearer ${accessToken}` (interpolating `undefined` when
the token is absent) and performs no error translation and no retry. -/
def toolingExecute (st : ClientState) (action method : String) (data : Option String)
    (net : Except AxErr α) : PassThroughResult α :=
  if optTruthy st.config.instanceUrl then
    let url := st.config.instanceUrl.getD "" ++ "/services/data/v58.0/tooling/" ++ action
    let req : RequestSpec := ⟨method, url, data, tokenString st.config.accessToken⟩
    match net with
    | .ok d => ⟨.ok d, some req⟩
    | .error e => ⟨.error (.ax e), some req⟩
  else ⟨.error .notAuthenticated, none⟩

/-- `SalesforceClient.apexExecute`: same precondition as `toolingExecute`,
with leading-slash normalization of the action and the apexrest base path. -/
def apexExecute (st : ClientState) (action method : String) (data : Option String)
    (net : Except AxErr α) : PassThroughResult α :=
  if optTruthy st.config.instanceUrl then
    let cleanAction := if action.startsWith "/" then action else "/" ++ action
    let url := st.config.instanceUrl.getD "" ++ "/services/apexrest" ++ cleanAction
    let req : RequestSpec := ⟨method, url, data, tokenString st.config.accessToken⟩
    match net with
    | .ok d => ⟨.ok d, some req⟩
    | .error e => ⟨.error (.ax e), some req⟩
  else ⟨.error .notAuthenticated, none⟩

/-! ## Helper predicates and lemmas -/

/-- The client-state components the session machinery never touches: the
non-session config fields and the metadata cache. -/
def untouchedFrame (a b : ClientState) : Prop :=
  a.config.clientId = b.config.clientId ∧ a.config.clientSecret = b.config.clientSecret ∧
  a.config.username = b.config.username ∧ a.config.password = b.config.password ∧
  a.config.securityToken = b.config.securityToken ∧ a.config.sandbox = b.config.sandbox ∧
  a.sobjectsCache = b.sobjectsCache

theorem untouchedFrame_refl (a : ClientState) : untouchedFrame a a :=
  ⟨rfl, rfl, rfl, rfl, rfl, rfl, rfl⟩

theorem tryTokenRefresh_frame (st : ClientState) (resp : Except AxErr AuthHttpResponse) :
    untouchedFrame (tryTokenRefresh st resp).state st := by
  unfold tryTokenRefresh
  dsimp only
  repeat' split
  all_goals first
    | exact untouchedFrame_refl st
    | exact ⟨rfl, rfl, rfl, rfl, rfl, rfl, rfl⟩

theorem makeRequest_frame {α : Type} (st : ClientState) (method path : String)
    (body : Option String) (net : Nat → Except AxErr α)
    (rr : Except AxErr AuthHttpResponse) :
    untouchedFrame (makeRequest st method path body net rr).state st := by
  unfold makeRequest
  dsimp only
  repeat' split
  all_goals first
    | exact untouchedFrame_refl st
    | exact tryTokenRefresh_frame st rr
    | exact ⟨rfl, rfl, rfl, rfl, rfl, rfl, rfl⟩

/-- A page transcript the `queryAll` loop consumes in full: every page
reaching the accumulator before the last keeps the loop going; the last
stops it (either `done` is set or the continuation locator is falsy). -/
def drains : QueryPage α → List (QueryPage α) → Prop
  | fp, [] => continues fp = false
  | fp, p :: rest => continues fp = true ∧ drains p rest

/-- The relative paths the pagination loop requests: each follow-up page is
fetched at its predecessor's `nextRecordsUrl` with the versioned path
stripped, never at the initial `/query` path again. -/
def locatorPaths : QueryPage α → List (QueryPage α) → List String
  | _, [] => []
  | fp, p :: rest =>
    replaceFirst (fp.nextRecordsUrl.getD "") "/services/data/v58.0" "" :: locatorPaths p rest

theorem drains_congr {α : Type} (a b : QueryPage α) (l : List (QueryPage α))
    (hd : a.done = b.done) (hn : a.nextRecordsUrl = b.nextRecordsUrl) :
    drains a l ↔ drains b l := by
  cases l <;> simp [drains, continues, hd, hn]

theorem locatorPaths_congr {α : Type} (a b : QueryPage α) (l : List (QueryPage α))
    (hn : a.nextRecordsUrl = b.nextRecordsUrl) :
    locatorPaths a l = locatorPaths b l := by
  cases l <;> simp [locatorPaths, hn]

theorem locatorPaths_length {α : Type} (fp : QueryPage α) (l : List (QueryPage α)) :
    (locatorPaths fp l).length = l.length := by
  induction l generalizing fp with
  | nil => rfl
  | cons p rest ih => simp [locatorPaths, ih]

theorem queryAllLoop_drains {α : Type} (fp : QueryPage α) (ps : List (QueryPage α))
    (h : drains fp ps) :
    (queryAllLoop fp ps).1.records = fp.records ++ (ps.map QueryPage.records).flatten ∧
    (queryAllLoop fp ps).2 = locatorPaths fp ps := by
  induction ps generalizing fp with
  | nil => simp [queryAllLoop, locatorPaths]
  | cons p rest ih =>
    obtain ⟨hc, hrest⟩ := h
    have hdr :
        drains (⟨p.totalSize, p.done, fp.records ++ p.records, p.nextRecordsUrl⟩ : QueryPage α)
          rest :=
      (drains_congr (⟨p.totalSize, p.done, fp.records ++ p.records, p.nextRecordsUrl⟩ : QueryPage α)
        p rest rfl rfl).mpr hrest
    have hih := ih _ hdr
    unfold queryAllLoop
    rw [if_pos hc]
    dsimp only
    refine ⟨?_, ?_⟩
    · rw [hih.1]
      simp [List.append_assoc]
    · rw [hih.2, locatorPaths,
        locatorPaths_congr
          (⟨p.totalSize, p.done, fp.records ++ p.records, p.nextRecordsUrl⟩ : QueryPage α) p rest
          rfl]

/-! ## Concrete fixtures used by witnesses and counterexamples -/

/-- A sample instance URL. -/
def instUrl0 : String := "https://inst.example.com"

/-- A fully authenticated client state: config with both session fields set
and an auth client holding a refresh token. -/
def st0 : ClientState :=
  ⟨⟨"id1", "sec1", some "u@x.com", some "p", some "tok", false, some "tokA", some instUrl0⟩,
   some ⟨"id1", "sec1", some "tokA", some instUrl0, some "rtok"⟩, []⟩

/-- A 200 identity-endpoint answer carrying a fresh access token. -/
def rr200 : Except AxErr AuthHttpResponse := Except.ok ⟨200, "newTok", instUrl0, none⟩

/-- Data-endpoint oracle: the first call is rejected with 401, the retry
succeeds. -/
def net401 : Nat → Except AxErr Nat :=
  fun i => if i == 0 then Except.error (AxErr.http 401 none) else Except.ok 7

/-! ## Claims -/

/-- **C2.** Every `makeRequest` call made while the session is not valid
(`accessToken` or `instanceUrl` falsy — which covers both fields being
absent) fails immediately with the not-authenticated error and issues no
downstream request. -/
theorem makeRequest_requires_session {α : Type} (st : ClientState) (method path : String)
    (body : Option String) (net : Nat → Except AxErr α) (rr : Except AxErr AuthHttpResponse)
    (h : optTruthy st.config.accessToken = false ∨ optTruthy st.config.instanceUrl = false) :
    (makeRequest st method path body net rr).result = Except.error ReqError.notAuthenticated ∧
    (makeRequest st method path body net rr).issued = [] := by
  have hg : (optTruthy st.config.accessToken && optTruthy st.config.instanceUrl) = false := by
    rcases h with h | h <;> simp [h]
  unfold makeRequest
  rw [hg]
  simp

/-- Closed instance of `makeRequest_requires_session`: a state with no
access token fails without issuing a request. -/
theorem makeRequest_requires_session_witness :
    (makeRequest (⟨⟨"id1", "sec1", none, none, none, false, none, some instUrl0⟩, none, []⟩ :
        ClientState) "GET" "/query" none net401 rr200).result =
      Except.error ReqError.notAuthenticated ∧
    (makeRequest (⟨⟨"id1", "sec1", none, none, none, false, none, some instUrl0⟩, none, []⟩ :
        ClientState) "GET" "/query" none net401 rr200).issued = [] :=
  makeRequest_requires_session _ "GET" "/query" none net401 rr200 (Or.inl (by decide))

/-- The exchange request actually posted by `authenticate`: its URL and its
form body, independent of the response. -/
theorem authenticate_request (a : AuthClientState) (u p t : String) (sb : Bool)
    (resp : Except AxErr AuthHttpResponse) :
    (authenticate a u p t sb resp).url = getOAuthTokenUrl sb ∧
    (authenticate a u p t sb resp).body =
      ⟨"password", a.clientId, a.clientSecret, u, if t == "" then p else p ++ t⟩ := by
  unfold authenticate
  cases resp with
  | error e => exact ⟨rfl, rfl⟩
  | ok r =>
    dsimp only
    by_cases h : (r.status == 200) = true
    · rw [if_pos h]; exact ⟨rfl, rfl⟩
    · rw [if_neg h]; exact ⟨rfl, rfl⟩

/-- **C5.** The credential exchange posts the concatenation of password and
security token as the password field when a token is supplied (the password
alone otherwise), with the password grant type and the caller's identity,
and targets the sandbox identity base exactly when the sandbox flag is set. -/
theorem authenticate_password_and_endpoint (a : AuthClientState)
    (username password securityToken : String) (sandbox : Bool)
    (resp : Except AxErr AuthHttpResponse) :
    (securityToken ≠ "" →
      (authenticate a username password securityToken sandbox resp).body.password =
        password ++ securityToken) ∧
    (securityToken = "" →
      (authenticate a username password securityToken sandbox resp).body.password = password) ∧
    (authenticate a username password securityToken sandbox resp).body.grant_type = "password" ∧
    (authenticate a username password securityToken sandbox resp).body.username = username ∧
    (authenticate a username password securityToken sandbox resp).body.client_id = a.clientId ∧
    (authenticate a username password securityToken sandbox resp).body.client_secret =
      a.clientSecret ∧
    (sandbox = true →
      (authenticate a username password securityToken sandbox resp).url =
        "https://test.salesforce.com/services/oauth2/token") ∧
    (sandbox = false →
      (authenticate a username password securityToken sandbox resp).url =
        "https://login.salesforce.com/services/oauth2/token") := by
  obtain ⟨hu, hb⟩ := authenticate_request a username password securityToken sandbox resp
  refine ⟨?_, ?_, ?_, ?_, ?_, ?_, ?_, ?_⟩
  · intro hne
    rw [hb]
    simp [hne]
  · intro he
    rw [hb]
    simp [he]
  · rw [hb]
  · rw [hb]
  · rw [hb]
  · rw [hb]
  · intro hs
    rw [hu, hs]
    decide
  · intro hs
    rw [hu, hs]
    decide

/-- Closed instance of `authenticate_password_and_endpoint`: the spec's
concrete scenario — password "p", token "tok", sandbox — yields the form
password "ptok" against the sandbox identity base. -/
theorem authenticate_password_and_endpoint_witness :
    (authenticate ⟨"id1", "sec1", none, none, none⟩ "u@x.com" "p" "tok" true rr200).body.password =
      "ptok" ∧
    (authenticate ⟨"id1", "sec1", none, none, none⟩ "u@x.com" "p" "tok" true rr200).url =
      "https://test.salesforce.com/services/oauth2/token" := by
  have h := authenticate_password_and_endpoint ⟨"id1", "sec1", none, none, none⟩
    "u@x.com" "p" "tok" true rr200
  exact ⟨h.1 (by decide), h.2.2.2.2.2.2.1 rfl⟩

/-- **C6.** A renewal attempted with no refresh material (falsy
`refreshToken`, covering absent) fails immediately with a false result,
leaves the auth state unchanged, and performs no network call. -/
theorem refreshAccessToken_no_refresh_material (a : AuthClientState) (sandbox : Bool)
    (resp : Except AxErr AuthHttpResponse) (h : optTruthy a.refreshToken = false) :
    refreshAccessToken a sandbox resp = ⟨false, a, false⟩ := by
  unfold refreshAccessToken
  rw [h]
  simp

/-- Closed instance of `refreshAccessToken_no_refresh_material`: an auth
client whose exchange response carried no `refresh_token`. -/
theorem refreshAccessToken_no_refresh_material_witness :
    refreshAccessToken ⟨"id1", "sec1", some "tokA", some instUrl0, none⟩ false rr200 =
      ⟨false, ⟨"id1", "sec1", some "tokA", some instUrl0, none⟩, false⟩ :=
  refreshAccessToken_no_refresh_material _ false rr200 (by decide)

/-- **C7 (amended).** On a successful renewal (refresh material present,
HTTP 200) `accessToken` and `instanceUrl` are replaced from the response
and everything else is left unchanged; in particular the stored refresh
token is never replaced, even when the response supplies a new one. -/
theorem refreshAccessToken_success_updates (a : AuthClientState) (sandbox : Bool)
    (r : AuthHttpResponse) (hrt : optTruthy a.refreshToken = true) (h200 : r.status = 200) :
    refreshAccessToken a sandbox (Except.ok r) =
      ⟨true, { a with accessToken := some r.access_token, instanceUrl := some r.instance_url },
        true⟩ ∧
    (refreshAccessToken a sandbox (Except.ok r)).auth.refreshToken = a.refreshToken ∧
    (refreshAccessToken a sandbox (Except.ok r)).auth.clientId = a.clientId ∧
    (refreshAccessToken a sandbox (Except.ok r)).auth.clientSecret = a.clientSecret := by
  have he : refreshAccessToken a sandbox (Except.ok r) =
      ⟨true, { a with accessToken := some r.access_token, instanceUrl := some r.instance_url },
        true⟩ := by
    simp [refreshAccessToken, hrt, h200]
  exact ⟨he, by rw [he], by rw [he], by rw [he]⟩

/-- Closed instance of `refreshAccessToken_success_updates`. -/
theorem refreshAccessToken_success_updates_witness :
    refreshAccessToken ⟨"id1", "sec1", some "tokA", some instUrl0, some "rtok"⟩ false
        (Except.ok ⟨200, "newTok", instUrl0, none⟩) =
      ⟨true, ⟨"id1", "sec1", some "newTok", some instUrl0, some "rtok"⟩, true⟩ := by
  have h := refreshAccessToken_success_updates
    ⟨"id1", "sec1", some "tokA", some instUrl0, some "rtok"⟩ false
    ⟨200, "newTok", instUrl0, none⟩ (by decide) rfl
  exact h.1

/-- Counterexample to **C7** as stated: a successful renewal whose response
supplies a new `refresh_token` does not replace the stored refresh token —
the code never reads `refresh_token` out of the refresh response. -/
theorem refreshAccessToken_ignores_new_refresh_token :
    (refreshAccessToken ⟨"id1", "sec1", some "tokA", some instUrl0, some "oldRT"⟩ false
        (Except.ok ⟨200, "newAT", instUrl0, some "newRT"⟩)).success = true ∧
    (Except.ok (⟨200, "newAT", instUrl0, some "newRT"⟩ : AuthHttpResponse) :
        Except AxErr AuthHttpResponse).toOption.map AuthHttpResponse.refresh_token =
      some (some "newRT") ∧
    (refreshAccessToken ⟨"id1", "sec1", some "tokA", some instUrl0, some "oldRT"⟩ false
        (Except.ok ⟨200, "newAT", instUrl0, some "newRT"⟩)).auth.refreshToken = some "oldRT" ∧
    (refreshAccessToken ⟨"id1", "sec1", some "tokA", some instUrl0, some "oldRT"⟩ false
        (Except.ok ⟨200, "newAT", instUrl0, some "newRT"⟩)).auth.refreshToken ≠ some "newRT" := by
  refine ⟨rfl, rfl, rfl, ?_⟩
  decide

/-- **C1.** When the first downstream request of a `makeRequest` call (made
with a valid session) fails with HTTP 401, the renewal flow is invoked
exactly once; if renewal succeeds the same request (method, URL, body) is
retried exactly once with the refreshed token and the retry's outcome is
surfaced; if renewal fails the translated original error is surfaced after a
single request; in every case at most two downstream requests are issued. -/
theorem makeRequest_single_retry_on_401 {α : Type} (st : ClientState) (method path : String)
    (body : Option String) (net : Nat → Except AxErr α) (rr : Except AxErr AuthHttpResponse)
    (e : AxErr)
    (hauth : (optTruthy st.config.accessToken && optTruthy st.config.instanceUrl) = true)
    (h0 : net 0 = Except.error e) (h401 : e.is401 = true) :
    (makeRequest st method path body net rr).renewCalls = 1 ∧
    (makeRequest st method path body net rr).issued.length ≤ 2 ∧
    ((tryTokenRefresh st rr).success = true →
      (makeRequest st method path body net rr).issued =
        [⟨method, getApiUrl (st.config.instanceUrl.getD "") path, body,
          tokenString st.config.accessToken⟩,
         ⟨method, getApiUrl (st.config.instanceUrl.getD "") path, body,
          tokenString (tryTokenRefresh st rr).state.config.accessToken⟩] ∧
      (makeRequest st method path body net rr).result =
        (match net 1 with
         | Except.ok d => Except.ok d
         | Except.error e2 => Except.error (ReqError.raw e2))) ∧
    ((tryTokenRefresh st rr).success = false →
      (makeRequest st method path body net rr).result = Except.error (handleRequestError e) ∧
      (makeRequest st method path body net rr).issued.length = 1) := by
  by_cases hs : (tryTokenRefresh st rr).success = true
  · cases hn1 : net 1 with
    | ok d =>
      have hmk : makeRequest st method path body net rr =
          ⟨Except.ok d, (tryTokenRefresh st rr).state,
           [⟨method, getApiUrl (st.config.instanceUrl.getD "") path, body,
             tokenString st.config.accessToken⟩,
            ⟨method, getApiUrl (st.config.instanceUrl.getD "") path, body,
             tokenString (tryTokenRefresh st rr).state.config.accessToken⟩], 1⟩ := by
        unfold makeRequest
        rw [hauth, h0]
        simp [h401, hs, hn1]
      rw [hmk]
      exact ⟨rfl, by simp, fun _ => ⟨rfl, rfl⟩, fun hf => absurd hs (by simp [hf])⟩
    | error e2 =>
      have hmk : makeRequest st method path body net rr =
          ⟨Except.error (ReqError.raw e2), (tryTokenRefresh st rr).state,
           [⟨method, getApiUrl (st.config.instanceUrl.getD "") path, body,
             tokenString st.config.accessToken⟩,
            ⟨method, getApiUrl (st.config.instanceUrl.getD "") path, body,
             tokenString (tryTokenRefresh st rr).state.config.accessToken⟩], 1⟩ := by
        unfold makeRequest
        rw [hauth, h0]
        simp [h401, hs, hn1]
      rw [hmk]
      exact ⟨rfl, by simp, fun _ => ⟨rfl, rfl⟩, fun hf => absurd hs (by simp [hf])⟩
  · have hs2 : (tryTokenRefresh st rr).success = false := by simpa using hs
    have hmk : makeRequest st method path body net rr =
        ⟨Except.error (handleRequestError e), (tryTokenRefresh st rr).state,
         [⟨method, getApiUrl (st.config.instanceUrl.getD "") path, body,
           tokenString st.config.accessToken⟩], 1⟩ := by
      unfold makeRequest
      rw [hauth, h0]
      simp [h401, hs2]
    rw [hmk]
    exact ⟨rfl, by simp, fun ht => absurd ht hs, fun _ => ⟨rfl, rfl⟩⟩

/-- Closed instance of `makeRequest_single_retry_on_401`: a 401 followed by
a successful renewal and a successful retry. -/
theorem makeRequest_single_retry_on_401_witness :
    (makeRequest st0 "GET" "/query" none net401 rr200).renewCalls = 1 ∧
    (makeRequest st0 "GET" "/query" none net401 rr200).issued.length ≤ 2 := by
  have h := makeRequest_single_retry_on_401 st0 "GET" "/query" none net401 rr200
    (AxErr.http 401 none) (by decide) rfl (by decide)
  exact ⟨h.1, h.2.1⟩

/-- **C3.** When the loop's page transcript drains (each page before the
last keeps the loop going and the last stops it), `queryAll` accumulates the
records of every page in arrival order, issues exactly one downstream call
per page (`1 + ps.length` in total), fetches every follow-up page at its
predecessor's locator (never re-issuing the first `/query` page); and when
the first page has `done = false` but no locator, it terminates at once with
just the initial call. -/
theorem queryAll_pagination {α : Type} (fp : QueryPage α) (ps : List (QueryPage α)) :
    (drains fp ps →
      (queryAll fp ps).1.records = fp.records ++ (ps.map QueryPage.records).flatten ∧
      (queryAll fp ps).2 = "/query" :: locatorPaths fp ps ∧
      (queryAll fp ps).2.length = 1 + ps.length) ∧
    (fp.done = false → fp.nextRecordsUrl = none → queryAll fp ps = (fp, ["/query"])) := by
  constructor
  · intro h
    have hl := queryAllLoop_drains fp ps h
    unfold queryAll
    refine ⟨hl.1, by rw [hl.2], ?_⟩
    simp [hl.2, locatorPaths_length, Nat.add_comm]
  · intro hd hn
    have hc : continues fp = false := by simp [continues, hd, hn, optTruthy]
    cases ps with
    | nil => simp [queryAll, queryAllLoop]
    | cons p rest => simp [queryAll, queryAllLoop, hc]

/-- Closed instance of `queryAll_pagination`: a three-page result set
(sizes 1, 1, 1, `done = false, false, true`) yields exactly the three
records in arrival order and exactly three downstream calls. -/
theorem queryAll_pagination_witness :
    (queryAll (⟨3, false, [10], some "/services/data/v58.0/query/p2"⟩ : QueryPage Nat)
        [⟨3, false, [20], some "/services/data/v58.0/query/p3"⟩,
         ⟨3, true, [30], none⟩]).1.records = [10, 20, 30] ∧
    (queryAll (⟨3, false, [10], some "/services/data/v58.0/query/p2"⟩ : QueryPage Nat)
        [⟨3, false, [20], some "/services/data/v58.0/query/p3"⟩,
         ⟨3, true, [30], none⟩]).2.length = 3 := by
  have h := (queryAll_pagination
    (⟨3, false, [10], some "/services/data/v58.0/query/p2"⟩ : QueryPage Nat)
    [⟨3, false, [20], some "/services/data/v58.0/query/p3"⟩, ⟨3, true, [30], none⟩]).1
    ⟨rfl, rfl, rfl⟩
  exact ⟨h.1, h.2.2⟩

/-- **C4.** A cache hit in `getObjectFields` returns the stored entry with
no downstream request and no state change; a miss (valid session, fetch
succeeding) stores the filtered field list and issues exactly one request;
and populated entries are never evicted or refreshed: both `makeRequest` and
`getObjectFields` preserve every existing cache binding. -/
theorem getObjectFields_cache_policy (st : ClientState) (name : String)
    (net : Nat → Except AxErr SalesforceObjectMetadata) (rr : Except AxErr AuthHttpResponse)
    (cached : List SalesforceField) (md : SalesforceObjectMetadata)
    (k : String) (v : List SalesforceField) :
    (cacheLookup st.sobjectsCache name = some cached →
      getObjectFields st name net rr = ⟨Except.ok cached, st, []⟩) ∧
    (cacheLookup st.sobjectsCache name = none →
      (optTruthy st.config.accessToken && optTruthy st.config.instanceUrl) = true →
      net 0 = Except.ok md →
      (getObjectFields st name net rr).result = Except.ok (filterFields md.fields) ∧
      cacheLookup (getObjectFields st name net rr).state.sobjectsCache name =
        some (filterFields md.fields) ∧
      (getObjectFields st name net rr).issued.length = 1) ∧
    (cacheLookup st.sobjectsCache k = some v →
      cacheLookup (getObjectFields st name net rr).state.sobjectsCache k = some v) ∧
    ((makeRequest st "GET" ("/sobjects/" ++ name ++ "/describe") none net rr).state.sobjectsCache =
      st.sobjectsCache) := by
  have hmrf := (makeRequest_frame st "GET" ("/sobjects/" ++ name ++ "/describe")
    none net rr).2.2.2.2.2.2
  refine ⟨?_, ?_, ?_, hmrf⟩
  · intro hhit
    simp [getObjectFields, hhit]
  · intro hmiss hvalid hok
    have hmk : makeRequest st "GET" ("/sobjects/" ++ name ++ "/describe") none net rr =
        ⟨Except.ok md, st,
         [⟨"GET", getApiUrl (st.config.instanceUrl.getD "") ("/sobjects/" ++ name ++ "/describe"),
           none, tokenString st.config.accessToken⟩], 0⟩ := by
      unfold makeRequest
      rw [hvalid, hok]
      rfl
    simp [getObjectFields, hmiss, hmk, cacheLookup]
  · intro hkv
    cases hhit : cacheLookup st.sobjectsCache name with
    | some c =>
      simp [getObjectFields, hhit]
      exact hkv
    | none =>
      unfold getObjectFields
      rw [hhit]
      dsimp only
      cases hres : (makeRequest st "GET" ("/sobjects/" ++ name ++ "/describe") none net rr).result
          with
      | error e =>
        dsimp only
        rw [hmrf]
        exact hkv
      | ok md2 =>
        dsimp only
        by_cases hnk : (name == k) = true
        · exfalso
          have : name = k := by simpa using hnk
          rw [this] at hhit
          rw [hhit] at hkv
          exact Option.noConfusion hkv
        · simp only [cacheLookup, hnk, Bool.false_eq_true, if_false]
          rw [hmrf]
          exact hkv

/-- Closed instance of `getObjectFields_cache_policy`: a first lookup for
"Account" on an empty cache fetches once and populates the cache. -/
theorem getObjectFields_cache_policy_witness :
    (getObjectFields st0 "Account"
        (fun _ => Except.ok ⟨[⟨"Account Name", "Name", true, "string", 255, []⟩],
          "Account", "Account", true, true, true, true⟩) rr200).result =
      Except.ok (filterFields [⟨"Account Name", "Name", true, "string", 255, []⟩]) ∧
    cacheLookup (getObjectFields st0 "Account"
        (fun _ => Except.ok ⟨[⟨"Account Name", "Name", true, "string", 255, []⟩],
          "Account", "Account", true, true, true, true⟩) rr200).state.sobjectsCache "Account" =
      some (filterFields [⟨"Account Name", "Name", true, "string", 255, []⟩]) ∧
    (getObjectFields st0 "Account"
        (fun _ => Except.ok ⟨[⟨"Account Name", "Name", true, "string", 255, []⟩],
          "Account", "Account", true, true, true, true⟩) rr200).issued.length = 1 := by
  have h := (getObjectFields_cache_policy st0 "Account"
    (fun _ => Except.ok ⟨[⟨"Account Name", "Name", true, "string", 255, []⟩],
      "Account", "Account", true, true, true, true⟩) rr200 []
    ⟨[⟨"Account Name", "Name", true, "string", 255, []⟩], "Account", "Account",
      true, true, true, true⟩ "Account" []).2.1
  exact h rfl (by decide) rfl

/-- Reduce a Bool-conditioned `if` whose condition is known true. -/
theorem bif_pos {β : Sort v} {c : Bool} (h : c = true) (a b : β) :
    (if c = true then a else b) = a := if_pos h

/-- Reduce a Bool-conditioned `if` whose condition is known false. -/
theorem bif_neg {β : Sort v} {c : Bool} (h : c = false) (a b : β) :
    (if c = true then a else b) = b := if_neg (by simp [h])

/-- **C8.** With a pre-supplied access token and instance URL, a successful
liveness probe makes `connect` succeed with the credential exchange never
posted; a failed probe does not abort the attempt: when username/password
credentials are present the exchange is posted and its outcome decides the
connect result. -/
theorem connect_pre_supplied_token (st : ClientState) (probeNet : Nat → Except AxErr Unit)
    (rr authResp : Except AxErr AuthHttpResponse) (e : ReqError)
    (ht : optTruthy st.config.accessToken = true) (hi : optTruthy st.config.instanceUrl = true) :
    (probeNet 0 = Except.ok () →
      (connect st probeNet rr authResp).success = true ∧
      (connect st probeNet rr authResp).exchange = none) ∧
    ((makeRequest st "GET" "/sobjects" none probeNet rr).result = Except.error e →
      optTruthy st.config.username = true → optTruthy st.config.password = true →
      st.config.clientId ≠ "" → st.config.clientSecret ≠ "" →
      (connect st probeNet rr authResp).exchange.isSome = true ∧
      (connect st probeNet rr authResp).success =
        (tryUsernamePasswordAuth (tryAccessTokenAuth st probeNet rr).state authResp).success) := by
  have hgb : (optTruthy st.config.accessToken && optTruthy st.config.instanceUrl) = true := by
    rw [ht, hi]
    rfl
  constructor
  · intro hp
    have hmk : makeRequest st "GET" "/sobjects" none probeNet rr =
        ⟨Except.ok (), st,
         [⟨"GET", getApiUrl (st.config.instanceUrl.getD "") "/sobjects", none,
           tokenString st.config.accessToken⟩], 0⟩ := by
      unfold makeRequest
      rw [bif_pos hgb, hp]
    have ht1 : tryAccessTokenAuth st probeNet rr =
        ⟨true, st,
         [⟨"GET", getApiUrl (st.config.instanceUrl.getD "") "/sobjects", none,
           tokenString st.config.accessToken⟩]⟩ := by
      unfold tryAccessTokenAuth
      rw [bif_pos hgb, hmk]
    unfold connect
    rw [ht1]
    exact ⟨rfl, rfl⟩
  · intro hq hu hp2 hcid hcs
    have ht1 : tryAccessTokenAuth st probeNet rr =
        ⟨false, (makeRequest st "GET" "/sobjects" none probeNet rr).state,
         (makeRequest st "GET" "/sobjects" none probeNet rr).issued⟩ := by
      unfold tryAccessTokenAuth
      rw [bif_pos hgb]
      dsimp only
      rw [hq]
    have hf := makeRequest_frame st "GET" "/sobjects" none probeNet rr
    have hguard : (optTruthy (makeRequest st "GET" "/sobjects" none probeNet rr).state.config.username &&
        optTruthy (makeRequest st "GET" "/sobjects" none probeNet rr).state.config.password &&
        !((makeRequest st "GET" "/sobjects" none probeNet rr).state.config.clientId == "") &&
        !((makeRequest st "GET" "/sobjects" none probeNet rr).state.config.clientSecret == "")) =
        true := by
      rw [hf.2.2.1, hf.2.2.2.1, hf.1, hf.2.1]
      simp [hu, hp2, hcid, hcs]
    have hex : (tryUsernamePasswordAuth
        (makeRequest st "GET" "/sobjects" none probeNet rr).state authResp).exchange.isSome =
        true := by
      unfold tryUsernamePasswordAuth
      rw [bif_pos hguard]
      dsimp only
      split <;> rfl
    unfold connect
    rw [ht1]
    dsimp only
    rw [bif_neg rfl]
    constructor
    · by_cases h2 : (tryUsernamePasswordAuth
          (makeRequest st "GET" "/sobjects" none probeNet rr).state authResp).success = true
      · rw [bif_pos h2]
        exact hex
      · have h2f : (tryUsernamePasswordAuth
            (makeRequest st "GET" "/sobjects" none probeNet rr).state authResp).success = false :=
          by simpa using h2
        rw [bif_neg h2f]
        exact hex
    · by_cases h2 : (tryUsernamePasswordAuth
          (makeRequest st "GET" "/sobjects" none probeNet rr).state authResp).success = true
      · rw [bif_pos h2]
        exact h2.symm
      · have h2f : (tryUsernamePasswordAuth
            (makeRequest st "GET" "/sobjects" none probeNet rr).state authResp).success = false :=
          by simpa using h2
        rw [bif_neg h2f]
        exact h2f.symm

/-- Closed instance of `connect_pre_supplied_token`: a valid probe response
connects without an exchange. -/
theorem connect_pre_supplied_token_witness :
    (connect st0 (fun _ => Except.ok ()) rr200 rr200).success = true ∧
    (connect st0 (fun _ => Except.ok ()) rr200 rr200).exchange = none := by
  have h := (connect_pre_supplied_token st0 (fun _ => Except.ok ()) rr200 rr200
    ReqError.network (by decide) (by decide)).1
  exact h rfl

/-- **C9.** A config carrying neither the direct-token pair nor the
username/password pair makes `validateConfig` fail with the error
enumerating both acceptable combinations, and makes `connect` fail (resolve
false) without any network request, without an exchange, and with the
`handleAuthFailure` diagnostic enumerating both combinations. -/
theorem connect_missing_credentials (cfg : SalesforceConfig) (ac : Option AuthClientState)
    (cache : List (String × List SalesforceField))
    (probeNet : Nat → Except AxErr Unit) (rr authResp : Except AxErr AuthHttpResponse)
    (hno1 : (optTruthy cfg.accessToken && optTruthy cfg.instanceUrl) = false)
    (hno2 : (optTruthy cfg.username && optTruthy cfg.password) = false)
    (hid : cfg.clientId ≠ "") (hsec : cfg.clientSecret ≠ "") :
    validateConfig cfg = Except.error
      "Either (SALESFORCE_ACCESS_TOKEN + SALESFORCE_INSTANCE_URL) or (SALESFORCE_USERNAME + SALESFORCE_PASSWORD) must be provided" ∧
    connect ⟨cfg, ac, cache⟩ probeNet rr authResp =
      ⟨false, ⟨cfg, ac, cache⟩, [], none, handleAuthFailureLines⟩ := by
  constructor
  · unfold validateConfig
    simp [hid, hsec, hno1, hno2]
  · have ht1 : tryAccessTokenAuth ⟨cfg, ac, cache⟩ probeNet rr = ⟨false, ⟨cfg, ac, cache⟩, []⟩ := by
      unfold tryAccessTokenAuth
      rw [show (optTruthy (⟨cfg, ac, cache⟩ : ClientState).config.accessToken &&
        optTruthy (⟨cfg, ac, cache⟩ : ClientState).config.instanceUrl) = false from hno1]
      rfl
    have hguard : (optTruthy cfg.username && optTruthy cfg.password &&
        !(cfg.clientId == "") && !(cfg.clientSecret == "")) = false := by
      cases hA : optTruthy cfg.username <;> cases hB : optTruthy cfg.password <;> simp_all
    have ht2 : tryUsernamePasswordAuth ⟨cfg, ac, cache⟩ authResp =
        ⟨false, ⟨cfg, ac, cache⟩, none⟩ := by
      unfold tryUsernamePasswordAuth
      rw [show (optTruthy (⟨cfg, ac, cache⟩ : ClientState).config.username &&
        optTruthy (⟨cfg, ac, cache⟩ : ClientState).config.password &&
        !((⟨cfg, ac, cache⟩ : ClientState).config.clientId == "") &&
        !((⟨cfg, ac, cache⟩ : ClientState).config.clientSecret == "")) = false from hguard]
      rfl
    unfold connect
    rw [ht1]
    dsimp only
    rw [ht2]
    rfl

/-- Closed instance of `connect_missing_credentials`. -/
theorem connect_missing_credentials_witness :
    validateConfig ⟨"id1", "sec1", none, none, none, false, none, none⟩ = Except.error
      "Either (SALESFORCE_ACCESS_TOKEN + SALESFORCE_INSTANCE_URL) or (SALESFORCE_USERNAME + SALESFORCE_PASSWORD) must be provided" ∧
    connect ⟨⟨"id1", "sec1", none, none, none, false, none, none⟩, none, []⟩
        (fun _ => Except.ok ()) rr200 rr200 =
      ⟨false, ⟨⟨"id1", "sec1", none, none, none, false, none, none⟩, none, []⟩, [], none,
        handleAuthFailureLines⟩ :=
  connect_missing_credentials ⟨"id1", "sec1", none, none, none, false, none, none⟩ none []
    (fun _ => Except.ok ()) rr200 rr200 (by decide) (by decide) (by decide) (by decide)

/-- **C10.** `toolingExecute` and `apexExecute` gate only on `instanceUrl`:
they fail with the not-authenticated error exactly when `instanceUrl` is
falsy, and with `instanceUrl` present but `accessToken` absent they still
issue the downstream request (with the literal "undefined" token text),
unlike `makeRequest`, which refuses the same state without issuing
anything. -/
theorem toolingExecute_apexExecute_precondition {α : Type} (st : ClientState)
    (action method : String) (data : Option String) (net : Except AxErr α)
    (path : String) (body : Option String) (net2 : Nat → Except AxErr α)
    (rr : Except AxErr AuthHttpResponse) :
    (((toolingExecute st action method data net).result =
        Except.error ToolErr.notAuthenticated) ↔ optTruthy st.config.instanceUrl = false) ∧
    (((apexExecute st action method data net).result =
        Except.error ToolErr.notAuthenticated) ↔ optTruthy st.config.instanceUrl = false) ∧
    (optTruthy st.config.instanceUrl = true → st.config.accessToken = none →
      (toolingExecute st action method data net).issued =
        some ⟨method, st.config.instanceUrl.getD "" ++ "/services/data/v58.0/tooling/" ++ action,
          data, "undefined"⟩ ∧
      (apexExecute st action method data net).issued.isSome = true) ∧
    (st.config.accessToken = none →
      (makeRequest st method path body net2 rr).result = Except.error ReqError.notAuthenticated ∧
      (makeRequest st method path body net2 rr).issued = []) := by
  refine ⟨?_, ?_, ?_, ?_⟩
  · by_cases hiu : optTruthy st.config.instanceUrl = true
    · cases net <;> simp [toolingExecute, hiu]
    · simp only [Bool.not_eq_true] at hiu
      simp [toolingExecute, hiu]
  · by_cases hiu : optTruthy st.config.instanceUrl = true
    · cases net <;> simp [apexExecute, hiu]
    · simp only [Bool.not_eq_true] at hiu
      simp [apexExecute, hiu]
  · intro hiu hat
    constructor
    · cases net <;> simp [toolingExecute, hiu, hat, tokenString]
    · cases net <;> simp [apexExecute, hiu]
  · intro hat
    have hg : (optTruthy st.config.accessToken && optTruthy st.config.instanceUrl) = false := by
      rw [hat]
      rfl
    unfold makeRequest
    rw [hg]
    simp

/-- Closed instance of `toolingExecute_apexExecute_precondition`: with an
instance URL but no access token the tooling call still goes out with the
"undefined" token text, while `makeRequest` refuses. -/
theorem toolingExecute_apexExecute_precondition_witness :
    (toolingExecute (⟨⟨"id1", "sec1", none, none, none, false, none, some instUrl0⟩, none, []⟩ :
        ClientState) "query" "GET" none (Except.ok 5)).issued =
      some ⟨"GET", instUrl0 ++ "/services/data/v58.0/tooling/query", none, "undefined"⟩ ∧
    (makeRequest (⟨⟨"id1", "sec1", none, none, none, false, none, some instUrl0⟩, none, []⟩ :
        ClientState) "GET" "/q" none (fun _ => (Except.ok 5 : Except AxErr Nat)) rr200).issued =
      [] := by
  have h := toolingExecute_apexExecute_precondition
    (⟨⟨"id1", "sec1", none, none, none, false, none, some instUrl0⟩, none, []⟩ : ClientState)
    "query" "GET" none (Except.ok 5) "/q" none (fun _ => (Except.ok 5 : Except AxErr Nat)) rr200
  exact ⟨(h.2.2.1 (by decide) rfl).1, (h.2.2.2 rfl).2⟩
